import Mathlib

/-!
Verification development for the Public-Transport-System repository.

The Python sources are shallowly embedded: pure fragments become Lean
functions, stateful methods become explicit state-passing functions, and
every random draw (shuffles, jitter, increments) becomes an explicit
argument constrained by the range the source draws it from.  Machine
floats are modelled by rationals; wall-clock times by rationals.
-/

namespace Transport

/-! ## Coordinate table and stop lookup (src/common/config.py ROUTE_COORDS,
src/common/utils.py get_coordinates_for_stop; identical data in src/utils.py) -/

/-- ROUTE_COORDS from src/common/config.py (same table in src/utils.py). -/
def ROUTE_COORDS : List (String × ℚ × ℚ) :=
  [("Port Authority Terminal", 40.7577, -73.9901),
   ("Times Square", 40.7580, -73.9855),
   ("Flatiron", 40.7411, -73.9897),
   ("Union Square", 40.7359, -73.9911),
   ("Wall Street", 40.7068, -74.0090),
   ("Queens Plaza", 40.7489, -73.9375),
   ("Herald Square", 40.7497, -73.9876),
   ("Delancey St", 40.7183, -73.9593),
   ("Middle Village", 40.7147, -73.8878),
   ("Penn Station", 40.7506, -73.9939),
   ("JFK Airport", 40.6413, -73.7781),
   ("Washington Square", 40.7308, -73.9973),
   ("Greenwich Village", 40.7336, -74.0027),
   ("Near NYU", 40.7295, -73.9965),
   ("Near Flatiron", 40.7411, -73.9897),
   ("Near Bryant Park", 40.7536, -73.9832),
   ("Midtown", 40.7549, -73.9840),
   ("Columbus Circle", 40.7682, -73.9819),
   ("Upper West Side", 40.7870, -73.9754),
   ("Near Columbia University", 40.8075, -73.9626),
   ("Columbia University", 40.8075, -73.9626)]

/-- Membership test `next_stop in ROUTE_COORDS` together with the lookup
`ROUTE_COORDS[next_stop]`. -/
def coordsFind (stop : String) : Option (ℚ × ℚ) :=
  (ROUTE_COORDS.find? (fun e => e.1 == stop)).map (fun e => e.2)

/-- get_coordinates_for_stop: table lookup with the fixed Times Square
fallback (40.7580, -73.9855) for unknown names. -/
def get_coordinates_for_stop (stop : String) : ℚ × ℚ :=
  (coordsFind stop).getD (40.7580, -73.9855)

/-! ## Movement interpolation (src/common/utils.py calculate_realistic_movement;
src/utils.py has the same function without the int() truncation) -/

/-- Python int() applied to a real number: truncation toward zero. -/
def truncToZero (q : ℚ) : ℤ :=
  if 0 ≤ q then ⌊q⌋ else ⌈q⌉

/-- Python expression `max(0, min(100, int(progress_percent)))` from
src/common/utils.py line 84. -/
def pyClampInt (q : ℚ) : ℤ :=
  max 0 (min 100 (truncToZero q))

/-- The random draws consumed by calculate_realistic_movement: the synthetic
destination offsets (drawn from uniform(0.001, 0.003), used only when the
stop is unknown) and the per-axis jitter (uniform(-0.0005, 0.0005)). -/
structure MoveRand where
  offLat : ℚ
  offLong : ℚ
  jitLat : ℚ
  jitLong : ℚ
  deriving DecidableEq, Repr

/-- calculate_realistic_movement from src/common/utils.py lines 69-99 with
the random draws made explicit.  `progress_percent` is clamped to [0,100]
after int() truncation; the destination is the table coordinate of
`next_stop`, or the current location plus a small synthetic offset when
the stop is unknown; the result is the linear interpolation plus jitter. -/
def calculate_realistic_movement (current : ℚ × ℚ) (next_stop : String)
    (progress_percent : ℚ) (r : MoveRand) : ℚ × ℚ :=
  let frac : ℚ := (pyClampInt progress_percent : ℚ) / 100
  let dest : ℚ × ℚ :=
    match coordsFind next_stop with
    | some c => c
    | none => (current.1 + r.offLat, current.2 + r.offLong)
  (current.1 + (dest.1 - current.1) * frac + r.jitLat,
   current.2 + (dest.2 - current.2) * frac + r.jitLong)

/-- Squared Euclidean distance between two coordinate pairs. -/
def dist2 (a b : ℚ × ℚ) : ℚ :=
  (a.1 - b.1) ^ 2 + (a.2 - b.2) ^ 2

/-! ## Reroute (TrainClient.execute REROUTE branch, src/vehicles/train.py
lines 168-175; BusClient.execute has the identical branch in
src/bus.py lines 181-189) -/

/-- The REROUTE branch of execute.  `mid` stands for the result of
`random.shuffle(route[1:-1])`; the caller constrains it to be a
permutation of the interior.  Returns the new route and the log line. -/
def executeReroute (route : List String) (mid : List String) :
    List String × String :=
  if 3 < route.length then
    let route2 := route.take 1 ++ mid ++ route.drop (route.length - 1)
    (route2, "Train rerouted: " ++ String.intercalate " -> " route2)
  else
    (route, "Route too short to reroute")

/-- Reply sent back on the control channel after a command. -/
inductive Reply where
  | ack (command message : String)
  | rejected (command reason : String)
  deriving DecidableEq, Repr

/-- Whether a reply is a CommandRejected. -/
def Reply.isRejected : Reply → Bool
  | .rejected _ _ => true
  | _ => false

/-- The REROUTE case of TrainClient.handle_command (src/vehicles/train.py
lines 136-138): execute, then unconditionally send CommandAck
"Route changed".  Returns the new route, the execute log line and the
reply. -/
def trainHandleReroute (route : List String) (mid : List String) :
    List String × String × Reply :=
  let e := executeReroute route mid
  (e.1, e.2, Reply.ack "REROUTE" "Route changed")

/-! ## Delay handling (Vehicle._handle_delay, src/vehicles/base_vehicle.py
lines 64-80, and the DELAY branch of TrainClient.execute,
src/vehicles/train.py lines 156-161) -/

/-- The delay-related attributes of a vehicle in the src/vehicles package.
`plainIsDelayed`/`plainDelayUntil` model the attributes named
`is_delayed`/`delay_until` that Vehicle._handle_delay reads through
getattr with defaults (none present until _handle_delay itself assigns
one); `uIsDelayed`/`uDelayUntil`/`uStatus` model the attributes named
`_is_delayed`/`_delay_until`/`_status` that RouteVehicle declares and
TrainClient.execute writes; `status` models the attribute named `status`
set by the Vehicle base class and read by send_status_update. -/
structure DelayState where
  plainIsDelayed : Option Bool
  plainDelayUntil : Option ℚ
  uIsDelayed : Bool
  uDelayUntil : ℚ
  uStatus : String
  status : String
  deriving DecidableEq, Repr

/-- Delay attributes of a freshly constructed TrainClient: RouteVehicle
sets `_is_delayed := False`, `_delay_until := 0.0`, `_status := "On Time"`;
the base class sets `status := "On Time"`; no attribute named
`is_delayed` or `delay_until` exists. -/
def trainInitDelayState : DelayState :=
  { plainIsDelayed := none, plainDelayUntil := none,
    uIsDelayed := false, uDelayUntil := 0,
    uStatus := "On Time", status := "On Time" }

/-- The DELAY branch of TrainClient.execute at wall-clock time `now` with
duration `duration`: sets `_is_delayed := True`, `_status := Delayed`,
`_delay_until := now + duration`. -/
def trainExecuteDelay (s : DelayState) (now duration : ℚ) : DelayState :=
  { s with uIsDelayed := true, uStatus := "Delayed",
           uDelayUntil := now + duration }

/-- Vehicle._handle_delay at wall-clock time `now`: reads
`getattr(self, "is_delayed", False)` and `getattr(self, "delay_until", 0.0)`
(the plain attribute names), returns True (sleep and recheck) while
delayed and not yet elapsed, clears the plain flag when the delay just
elapsed.  A False result means the movement loop proceeds with
_pre_step/_movement_step/_post_step. -/
def handleDelay (s : DelayState) (now : ℚ) : Bool × DelayState :=
  let isDelayed := s.plainIsDelayed.getD false
  let delayUntil := s.plainDelayUntil.getD 0
  if isDelayed ∧ now < delayUntil then
    (true, s)
  else if isDelayed then
    (false, { s with plainIsDelayed := some false })
  else
    (false, s)

/-! ## Point-to-point (Uber) progress (UberClient.simulate_movement,
src/vehicles/uber.py lines 46-140) -/

/-- One non-dropout iteration of the Uber movement loop acting on progress:
`self.progress = min(100, self.progress + random.randint(2, 5))`
(src/vehicles/uber.py line 116).  `inc` is the random increment. -/
def uberStep (p inc : ℕ) : ℕ :=
  min 100 (p + inc)

/-- Progress after the first `n` non-dropout iterations, starting from the
constructor value `self.progress = 0`, where `f i` is the increment drawn
at iteration `i`.  Dropout iterations `continue` before the progress
update, so they do not appear here. -/
def uberRun (f : ℕ → ℕ) : ℕ → ℕ
  | 0 => 0
  | n + 1 => uberStep (uberRun f n) (f n)

/-- A LocationUpdate beacon payload as built by send_udp_beacon
(src/utils.py lines 171-194): the optional fields are present only when
the argument is truthy in Python. -/
structure LocationUpdateMsg where
  vehicle_id : String
  vehicle_type : String
  status : String
  loc : ℚ × ℚ
  next_stop : Option String
  eta : Option ℤ
  deriving DecidableEq, Repr

/-- Python truthiness of an optional string: None and "" are falsy. -/
def pyTruthyStr : Option String → Bool
  | none => false
  | some s => s ≠ ""

/-- Python truthiness of an optional integer: None and 0 are falsy. -/
def pyTruthyInt : Option ℤ → Bool
  | none => false
  | some k => k ≠ 0

/-- send_udp_beacon from src/utils.py lines 171-194: builds the
LocationUpdate message; `next_stop` and `eta` are added with
`if next_stop:` / `if eta:`, so falsy values are omitted. -/
def send_udp_beacon (vehicle_id vehicle_type status : String) (loc : ℚ × ℚ)
    (next_stop : Option String) (eta : Option ℤ) : LocationUpdateMsg :=
  { vehicle_id := vehicle_id, vehicle_type := vehicle_type, status := status,
    loc := loc,
    next_stop := if pyTruthyStr next_stop then next_stop else none,
    eta := if pyTruthyInt eta then eta else none }

/-- The UberClient fields touched by the completion block and by
handle_command (src/vehicles/uber.py). -/
structure UberState where
  vehicle_id : String
  status : String
  running : Bool
  progress : ℕ
  eta : ℤ
  loc : ℚ × ℚ
  end_location : String
  in_network_dropout : Bool
  deriving DecidableEq, Repr

/-- The completion block of UberClient.simulate_movement
(src/vehicles/uber.py lines 122-140), entered when the loop exits with
progress >= 100: set the location to the destination coordinates, set
status to On Time, send one final TCP status update (flagged here as a
Bool), send one final UDP beacon with eta argument 0, set running False.
Returns the final state, the status-update flag and the final beacon. -/
def uberOnCompletion (s : UberState) : UberState × Bool × LocationUpdateMsg :=
  let s1 := { s with loc := get_coordinates_for_stop s.end_location,
                     status := "On Time" }
  let beacon := send_udp_beacon s1.vehicle_id "Uber" s1.status s1.loc none (some 0)
  ({ s1 with running := false }, true, beacon)

/-- UberClient.handle_command (src/vehicles/uber.py lines 142-160): every
branch only sends a CommandRejected with a reason; the body contains no
assignment to vehicle state, so the state is returned unchanged.  (The
best-effort network send itself is not modelled.) -/
def uberHandleCommand (s : UberState) (command : String) : UberState × Reply :=
  if command = "SHUTDOWN" then
    (s, Reply.rejected command "Cannot shutdown/cancel private ride - encapsulated rules")
  else if command = "REROUTE" then
    (s, Reply.rejected command "Cannot reroute private ride - driver autonomy rules")
  else if command = "DELAY" then
    (s, Reply.rejected command "Cannot artificially delay private ride")
  else
    (s, Reply.rejected command "Unknown or unsupported command")

/-! ## Server (src/server/server.py TransportServer) -/

/-- Observable server effects: observer notifications, database event-log
rows, database location rows, vehicle-table upserts, admin-command rows
and TCP sends to a vehicle connection. -/
inductive ServerEff where
  | notifyObs (event data : String)
  | eventLog (vehicle_id event_type details : String)
  | locationLog (vehicle_id : String) (lat long : ℚ) (network_status : String)
  | vehicleUpsert (vehicle_id status : String)
  | adminCommandLog (vehicle_id command_type status : String)
  | tcpSend (conn : ℕ) (command_type : String)
  deriving DecidableEq, Repr

/-- Control-channel messages read by the per-connection loop after
registration. -/
inductive TcpMsg where
  | statusUpdate (lat long : ℚ) (network_status : Option String) (status : String)
  | commandRejected (reason : Option String)
  | commandAck
  deriving DecidableEq, Repr

/-- TransportServer.process_tcp_message (src/server/server.py lines
274-291): StatusUpdate is logged to the location table and the vehicle
table; CommandRejected is logged as a COMMAND_FAILURE event (lines
286-288); CommandAck does nothing. -/
def process_tcp_message (m : TcpMsg) (vehicle_id : String) : List ServerEff :=
  match m with
  | .statusUpdate lat long network_status status =>
      [.locationLog vehicle_id lat long (network_status.getD "Unknown"),
       .vehicleUpsert vehicle_id status]
  | .commandRejected reason =>
      [.eventLog vehicle_id "COMMAND_FAILURE" (reason.getD "Unknown reason")]
  | .commandAck => []

/-- The server registry and vehicle-type maps.  Python dict assignment is
modelled by consing (lookup takes the first match) and dict deletion by
filtering the key out. -/
structure ServerState where
  vehicle_registry : List (String × ℕ)
  vehicle_types : List (String × String)
  deriving DecidableEq, Repr

/-- Dictionary lookup in the registry. -/
def regLookup (st : ServerState) (vehicle_id : String) : Option ℕ :=
  (st.vehicle_registry.find? (fun e => e.1 == vehicle_id)).map (fun e => e.2)

/-- The registration block of handle_client (under the registry lock):
`self.vehicle_registry[vehicle_id] = client_socket` and
`self.vehicle_types[vehicle_id] = vehicle_type`. -/
def regInsert (st : ServerState) (vehicle_id : String) (conn : ℕ)
    (vehicle_type : String) : ServerState :=
  { vehicle_registry := (vehicle_id, conn) :: st.vehicle_registry,
    vehicle_types := (vehicle_id, vehicle_type) :: st.vehicle_types }

/-- The cleanup block of handle_client (under the registry lock):
`if vehicle_id in ...: del ...` on both maps. -/
def regRemove (st : ServerState) (vehicle_id : String) : ServerState :=
  { vehicle_registry := st.vehicle_registry.filter (fun e => e.1 ≠ vehicle_id),
    vehicle_types := st.vehicle_types.filter (fun e => e.1 ≠ vehicle_id) }

/-- The first message of a connection. -/
inductive FirstMsg where
  | reg (vehicle_id vehicle_type : String)
  | nonReg
  deriving DecidableEq, Repr

/-- TransportServer.handle_client (src/server/server.py lines 229-272) for
one connection `conn`.  `rest` is the sequence of control-channel
messages decoded by the read loop before it terminates (zero-length read,
decode error or socket error all break the loop).  A first message that
is not a Registration is ignored and the handler just closes the socket.
Returns the final server state and the emitted effects in order. -/
def handle_client (st : ServerState) (conn : ℕ) (first : FirstMsg)
    (rest : List TcpMsg) : ServerState × List ServerEff :=
  match first with
  | .reg vehicle_id vehicle_type =>
      let st1 := regInsert st vehicle_id conn vehicle_type
      let connectEffs : List ServerEff :=
        [.notifyObs "VEHICLE_CONNECTED" (vehicle_id ++ " (" ++ vehicle_type ++ ")"),
         .eventLog vehicle_id "VEHICLE_CONNECTED"
           (vehicle_id ++ " (" ++ vehicle_type ++ ") connected")]
      let loopEffs := (rest.map (fun m => process_tcp_message m vehicle_id)).flatten
      let st2 := regRemove st1 vehicle_id
      (st2, connectEffs ++ loopEffs ++
        [.notifyObs "VEHICLE_DISCONNECTED" vehicle_id,
         .eventLog vehicle_id "VEHICLE_DISCONNECTED" (vehicle_id ++ " disconnected")])
  | .nonReg => (st, [])

/-- TransportServer.send_command (src/server/server.py lines 348-371).
`sendOk` models whether the socket send raises.  Returns the (unchanged)
state, the boolean result and the effects. -/
def send_command (st : ServerState) (vehicle_id command_type : String)
    (sendOk : Bool) : ServerState × Bool × List ServerEff :=
  match regLookup st vehicle_id with
  | some conn =>
      if sendOk then
        (st, true,
         [.tcpSend conn command_type,
          .notifyObs "COMMAND_SENT" (command_type ++ " to " ++ vehicle_id),
          .adminCommandLog vehicle_id command_type "SENT"])
      else
        (st, false, [.adminCommandLog vehicle_id command_type "FAILED"])
  | none =>
      (st, false, [.adminCommandLog vehicle_id command_type "NOT_FOUND"])

/-! ## close() (Vehicle.close, src/vehicles/base_vehicle.py lines 448-463) -/

/-- The state touched by Vehicle.close: the running flag and the two
sockets.  A socket is `none` when the attribute is None (falsy),
`some true` when open and `some false` when closed; a closed Python
socket object is still truthy and close() on it is a no-op. -/
structure CloseState where
  running : Bool
  tcpSock : Option Bool
  udpSock : Option Bool
  deriving DecidableEq, Repr

/-- Vehicle.close: set running False; for each of the TCP and UDP sockets,
if the attribute is truthy, close it and log "<name> socket closed";
finally log "Client shutting down".  Returns the new state and the log
lines in order. -/
def close (s : CloseState) : CloseState × List String :=
  let tcpRes : Option Bool × List String :=
    match s.tcpSock with
    | none => (none, [])
    | some _ => (some false, ["TCP socket closed"])
  let udpRes : Option Bool × List String :=
    match s.udpSock with
    | none => (none, [])
    | some _ => (some false, ["UDP socket closed"])
  ({ running := false, tcpSock := tcpRes.1, udpSock := udpRes.1 },
   tcpRes.2 ++ udpRes.2 ++ ["Client shutting down"])

end Transport

namespace Transport

/-! ## Claim C2 -/

/-- Claim C2 (code-bug evidence): executing Delay on a freshly started
TrainClient at time 1000 with duration 60 sets the attributes named
`_is_delayed`, `_status` and `_delay_until` as documented, but the
movement loop's delay check Vehicle._handle_delay reads the attributes
named `is_delayed`/`delay_until`, so at time 1001 — inside the commanded
delay window [1000, 1060] — it returns False and the loop proceeds to
_movement_step: travel progress is not suspended, and the `status`
attribute read by send_status_update still says On Time. -/
theorem C2_delay_never_observed_by_movement_loop :
    (trainExecuteDelay trainInitDelayState 1000 60).uIsDelayed = true ∧
    (trainExecuteDelay trainInitDelayState 1000 60).uStatus = "Delayed" ∧
    (trainExecuteDelay trainInitDelayState 1000 60).uDelayUntil = 1060 ∧
    (trainExecuteDelay trainInitDelayState 1000 60).status = "On Time" ∧
    (1001 : ℚ) < 1060 ∧
    (handleDelay (trainExecuteDelay trainInitDelayState 1000 60) 1001).1 = false ∧
    (handleDelay (trainExecuteDelay trainInitDelayState 1000 60) 1001).2 =
      trainExecuteDelay trainInitDelayState 1000 60 := by
  refine ⟨rfl, rfl, ?_, rfl, by norm_num, rfl, rfl⟩
  norm_num [trainExecuteDelay, trainInitDelayState]

/-! ## Claim C4 -/

/-- Claim C4 (code-bug evidence): the completion block of
UberClient.simulate_movement, evaluated at a concrete state with
progress 100, does set status to On Time, send the final status update,
and clear running — but the final UDP beacon, although invoked with eta
argument 0, carries no eta field at all, because send_udp_beacon adds
the field only under `if eta:` and 0 is falsy in Python. -/
theorem C4_final_beacon_drops_eta_zero :
    (uberOnCompletion ⟨"U900", "Active", true, 100, 1, (40.79, -73.97),
        "Columbia University", false⟩).1.status = "On Time" ∧
    (uberOnCompletion ⟨"U900", "Active", true, 100, 1, (40.79, -73.97),
        "Columbia University", false⟩).1.running = false ∧
    (uberOnCompletion ⟨"U900", "Active", true, 100, 1, (40.79, -73.97),
        "Columbia University", false⟩).2.1 = true ∧
    (uberOnCompletion ⟨"U900", "Active", true, 100, 1, (40.79, -73.97),
        "Columbia University", false⟩).2.2.status = "On Time" ∧
    (uberOnCompletion ⟨"U900", "Active", true, 100, 1, (40.79, -73.97),
        "Columbia University", false⟩).2.2.eta = none := by
  decide

/-! ## Claim C5 -/

/-- Claim C5 counterexample: on the 3-stop route ["A", "B", "C"] the
Reroute command leaves the route unchanged and logs the too-short
reason, but the reply sent back is CommandAck "Route changed" — not the
CommandRejected the claim asserts. -/
theorem C5_counterexample :
    (trainHandleReroute ["A", "B", "C"] ["B"]).1 = ["A", "B", "C"] ∧
    (trainHandleReroute ["A", "B", "C"] ["B"]).2.1 = "Route too short to reroute" ∧
    (trainHandleReroute ["A", "B", "C"] ["B"]).2.2 = Reply.ack "REROUTE" "Route changed" ∧
    (trainHandleReroute ["A", "B", "C"] ["B"]).2.2.isRejected = false := by
  decide

/-- Claim C5 as amended: for every route with at most 3 stops, the Reroute
command is a no-op on the route and "Route too short to reroute" is
logged, but the vehicle still replies CommandAck "Route changed" (no
CommandRejected is sent). -/
theorem C5_short_route_noop_but_acked (route mid : List String)
    (h : route.length ≤ 3) :
    trainHandleReroute route mid =
      (route, "Route too short to reroute", Reply.ack "REROUTE" "Route changed") := by
  simp [trainHandleReroute, executeReroute, Nat.not_lt.mpr h]

/-- Witness for C5 at the concrete 3-stop route. -/
theorem C5_witness :
    (["A", "B", "C"] : List String).length ≤ 3 ∧
    trainHandleReroute ["A", "B", "C"] ["B"] =
      (["A", "B", "C"], "Route too short to reroute", Reply.ack "REROUTE" "Route changed") :=
  ⟨by decide, C5_short_route_noop_but_acked ["A", "B", "C"] ["B"] (by decide)⟩

/-! ## Claim C9 -/

/-- Claim C9 counterexample: starting from a running vehicle with both
sockets open, the second call to close() emits the "Client shutting
down" log line again (its log output contains it once more), so calling
close twice is not observationally equal to calling it once. -/
theorem C9_counterexample :
    (close ⟨true, some true, some true⟩).2.count "Client shutting down" = 1 ∧
    (close (close ⟨true, some true, some true⟩).1).2.count "Client shutting down" = 1 ∧
    ((close ⟨true, some true, some true⟩).2 ++
        (close (close ⟨true, some true, some true⟩).1).2).count "Client shutting down" = 2 := by
  decide

/-- Claim C9 as amended: close() sets running to false, closes both
sockets, and logs the shutdown message exactly once per call; it is
idempotent on the vehicle state (a second call leaves the state
unchanged), but not on the log: the second call logs the shutdown
message again, because the socket attributes stay truthy and nothing
guards re-entry. -/
theorem C9_close_idempotent_on_state_not_on_log (s : CloseState) :
    (close s).1.running = false ∧
    (close (close s).1).1 = (close s).1 ∧
    (close s).2.count "Client shutting down" = 1 ∧
    (close (close s).1).2.count "Client shutting down" = 1 := by
  obtain ⟨running, tcp, udp⟩ := s
  cases tcp <;> cases udp <;> simp [close, List.count_cons]

/-! ## Claim C10 -/

/-- Claim C10: for a vehicle_id absent from the registry, send_command
sends nothing on any connection, returns False, records the command with
status NOT_FOUND, and leaves the server state (registry and vehicle-type
maps) unchanged. -/
theorem C10_send_command_not_found (st : ServerState)
    (vehicle_id command_type : String) (sendOk : Bool)
    (h : regLookup st vehicle_id = none) :
    send_command st vehicle_id command_type sendOk =
      (st, false, [ServerEff.adminCommandLog vehicle_id command_type "NOT_FOUND"]) := by
  simp [send_command, h]

/-- Witness for C10 on the empty registry. -/
theorem C10_witness :
    regLookup ⟨[], []⟩ "B999" = none ∧
    send_command ⟨[], []⟩ "B999" "DELAY" true =
      (⟨[], []⟩, false, [ServerEff.adminCommandLog "B999" "DELAY" "NOT_FOUND"]) :=
  ⟨rfl, C10_send_command_not_found ⟨[], []⟩ "B999" "DELAY" true rfl⟩

/-! ## Claim C6 -/

/-- Claim C6: for the Uber client, every externally issued Delay, Reroute
or Shutdown command is rejected unconditionally — in every state the
handler returns the state unchanged and a CommandRejected with a
non-empty reason — and the server's process_tcp_message logs every
received CommandRejected as a COMMAND_FAILURE event. -/
theorem C6_uber_rejects_all_commands (s : UberState) (vid command : String)
    (h : command = "DELAY" ∨ command = "REROUTE" ∨ command = "SHUTDOWN") :
    (uberHandleCommand s command).1 = s ∧
    ∃ reason, reason ≠ "" ∧
      (uberHandleCommand s command).2 = Reply.rejected command reason ∧
      process_tcp_message (TcpMsg.commandRejected (some reason)) vid =
        [ServerEff.eventLog vid "COMMAND_FAILURE" reason] := by
  rcases h with rfl | rfl | rfl
  · exact ⟨rfl, "Cannot artificially delay private ride", by decide, rfl, rfl⟩
  · exact ⟨rfl, "Cannot reroute private ride - driver autonomy rules", by decide, rfl, rfl⟩
  · exact ⟨rfl, "Cannot shutdown/cancel private ride - encapsulated rules", by decide, rfl, rfl⟩

/-- Witness for C6: Shutdown issued to a concrete Uber state. -/
theorem C6_witness :
    (("SHUTDOWN" : String) = "DELAY" ∨ ("SHUTDOWN" : String) = "REROUTE" ∨
      ("SHUTDOWN" : String) = "SHUTDOWN") ∧
    ((uberHandleCommand ⟨"U900", "Active", true, 0, 5, (40.7295, -73.9965),
        "Columbia University", false⟩ "SHUTDOWN").1 =
      ⟨"U900", "Active", true, 0, 5, (40.7295, -73.9965),
        "Columbia University", false⟩ ∧
    ∃ reason, reason ≠ "" ∧
      (uberHandleCommand ⟨"U900", "Active", true, 0, 5, (40.7295, -73.9965),
        "Columbia University", false⟩ "SHUTDOWN").2 = Reply.rejected "SHUTDOWN" reason ∧
      process_tcp_message (TcpMsg.commandRejected (some reason)) "server" =
        [ServerEff.eventLog "server" "COMMAND_FAILURE" reason]) :=
  ⟨Or.inr (Or.inr rfl),
   C6_uber_rejects_all_commands
     ⟨"U900", "Active", true, 0, 5, (40.7295, -73.9965), "Columbia University", false⟩
     "server" "SHUTDOWN" (Or.inr (Or.inr rfl))⟩

end Transport

namespace Transport

/-! ## Claim C1 -/

/-- Claim C1: for every route with more than 3 stops, the Reroute command
(with the shuffled interior `mid`, any permutation of the original
interior) produces a route with the same first and last stop, an
interior that is a permutation (same multiset) of the original interior,
and the same length. -/
theorem C1_reroute_preserves_endpoints_and_interior (route mid : List String)
    (h3 : 3 < route.length) (hperm : mid.Perm ((route.drop 1).dropLast)) :
    (executeReroute route mid).1.head? = route.head? ∧
    (executeReroute route mid).1.getLast? = route.getLast? ∧
    (((executeReroute route mid).1.drop 1).dropLast).Perm ((route.drop 1).dropLast) ∧
    (executeReroute route mid).1.length = route.length := by
  rcases route with _ | ⟨a, t⟩
  · simp at h3
  rcases List.eq_nil_or_concat t with rfl | ⟨l, z, rfl⟩
  · simp at h3
  simp only [List.concat_eq_append] at h3 hperm ⊢
  have hdrop : List.drop ((a :: (l ++ [z])).length - 1) (a :: (l ++ [z])) = [z] := by
    have he : (a :: (l ++ [z])).length - 1 = l.length + 1 := by simp
    rw [he, List.drop_succ_cons, List.drop_left]
  have hroute2 : (executeReroute (a :: (l ++ [z])) mid).1 = a :: (mid ++ [z]) := by
    unfold executeReroute
    rw [if_pos h3, hdrop]
    simp
  rw [hroute2]
  simp only [List.drop_succ_cons, List.drop_zero] at hperm ⊢
  rw [List.dropLast_concat] at hperm
  refine ⟨rfl, ?_, ?_, ?_⟩
  · rw [show a :: (mid ++ [z]) = (a :: mid) ++ [z] by simp,
      show a :: (l ++ [z]) = (a :: l) ++ [z] by simp,
      List.getLast?_concat, List.getLast?_concat]
  · rw [List.dropLast_concat, List.dropLast_concat]
    exact hperm
  · have := hperm.length_eq
    simp
    omega

/-- Witness for C1 on the 5-stop bus route shape with a reversed interior. -/
theorem C1_witness :
    3 < (["P", "Q", "R", "S", "T"] : List String).length ∧
    (["S", "R", "Q"] : List String).Perm
      (((["P", "Q", "R", "S", "T"] : List String).drop 1).dropLast) ∧
    ((executeReroute ["P", "Q", "R", "S", "T"] ["S", "R", "Q"]).1.head? =
        (["P", "Q", "R", "S", "T"] : List String).head? ∧
      (executeReroute ["P", "Q", "R", "S", "T"] ["S", "R", "Q"]).1.getLast? =
        (["P", "Q", "R", "S", "T"] : List String).getLast? ∧
      (((executeReroute ["P", "Q", "R", "S", "T"] ["S", "R", "Q"]).1.drop 1).dropLast).Perm
        (((["P", "Q", "R", "S", "T"] : List String).drop 1).dropLast) ∧
      (executeReroute ["P", "Q", "R", "S", "T"] ["S", "R", "Q"]).1.length =
        (["P", "Q", "R", "S", "T"] : List String).length) :=
  ⟨by decide, by decide,
   C1_reroute_preserves_endpoints_and_interior ["P", "Q", "R", "S", "T"] ["S", "R", "Q"]
     (by decide) (by decide)⟩

/-! ## Claim C3 -/

/-- Claim C3: starting at progress 0, for any sequence of random
increments each in [2, 5], progress is monotonically non-decreasing over
the non-dropout iterations, never exceeds 100, equals exactly 100 after
50 such iterations, and stays there — so the trip completes within a
bounded number of non-dropout iterations regardless of which iterations
the dropout simulation skips (skipped iterations do not touch
progress). -/
theorem C3_progress_monotone_capped_reaches_100 (f : ℕ → ℕ)
    (hf : ∀ i, 2 ≤ f i ∧ f i ≤ 5) :
    (∀ n, uberRun f n ≤ uberRun f (n + 1)) ∧
    (∀ n, uberRun f n ≤ 100) ∧
    uberRun f 50 = 100 ∧
    (∀ m, 50 ≤ m → uberRun f m = 100) := by
  have hle : ∀ n, uberRun f n ≤ 100 := by
    intro n
    induction n with
    | zero => simp [uberRun]
    | succ k ih =>
        simp only [uberRun, uberStep]
        omega
  have hmono : ∀ n, uberRun f n ≤ uberRun f (n + 1) := by
    intro n
    have := hle n
    simp only [uberRun, uberStep]
    omega
  have hlow : ∀ n, min 100 (2 * n) ≤ uberRun f n := by
    intro n
    induction n with
    | zero => simp [uberRun]
    | succ k ih =>
        have h2 := (hf k).1
        simp only [uberRun, uberStep]
        omega
  have h50 : uberRun f 50 = 100 := by
    have h1 := hlow 50
    have h2 := hle 50
    omega
  refine ⟨hmono, hle, h50, ?_⟩
  intro m hm
  induction m with
  | zero => omega
  | succ k ih =>
      rcases Nat.lt_or_ge k 50 with h | h
      · have hk : k + 1 = 50 := by omega
        rw [hk, h50]
      · have e1 := ih h
        have e2 := hmono k
        have e3 := hle (k + 1)
        omega

/-- Witness for C3 with the constant increment 2. -/
theorem C3_witness :
    uberRun (fun _ => 2) 50 = 100 ∧ uberRun (fun _ => 2) 7 ≤ 100 :=
  ⟨(C3_progress_monotone_capped_reaches_100 (fun _ => 2)
      (fun _ => ⟨Nat.le_refl 2, by norm_num⟩)).2.2.1,
   (C3_progress_monotone_capped_reaches_100 (fun _ => 2)
      (fun _ => ⟨Nat.le_refl 2, by norm_num⟩)).2.1 7⟩

end Transport

namespace Transport

/-! ## Claim C7 -/

/-- Is this effect the DISCONNECTED observer notification for `vid`? -/
def isDisconnectNotifyFor (vid : String) : ServerEff → Bool
  | .notifyObs ev data => ev == "VEHICLE_DISCONNECTED" && data == vid
  | _ => false

/-- The read loop (process_tcp_message) never emits a DISCONNECTED
notification. -/
theorem countP_disconnect_process (vid vid' : String) (m : TcpMsg) :
    (process_tcp_message m vid').countP (isDisconnectNotifyFor vid) = 0 := by
  cases m <;> rfl

/-- Nor does any sequence of read-loop messages. -/
theorem countP_disconnect_loop (vid vid' : String) (rest : List TcpMsg) :
    ((rest.map (fun m => process_tcp_message m vid')).flatten).countP
      (isDisconnectNotifyFor vid) = 0 := by
  induction rest with
  | nil => rfl
  | cons m ms ih =>
      simp only [List.map_cons, List.flatten_cons, List.countP_append, ih,
        countP_disconnect_process vid vid' m]

/-- Claim C7: for a connection whose first message is a valid Registration,
the registry gains an entry mapping the vehicle_id to the connection and
the CONNECTED event fires; after the read loop ends (EOF or error), the
entry is gone from the final registry and the DISCONNECTED event has
fired exactly once.  (The registry lock is modelled by the sequential
atomicity of regInsert/regRemove.) -/
theorem C7_registration_lifecycle (st : ServerState) (conn : ℕ)
    (vid vty : String) (rest : List TcpMsg) :
    regLookup (regInsert st vid conn vty) vid = some conn ∧
    ServerEff.notifyObs "VEHICLE_CONNECTED" (vid ++ " (" ++ vty ++ ")")
      ∈ (handle_client st conn (.reg vid vty) rest).2 ∧
    regLookup (handle_client st conn (.reg vid vty) rest).1 vid = none ∧
    (handle_client st conn (.reg vid vty) rest).2.countP
      (isDisconnectNotifyFor vid) = 1 := by
  refine ⟨?_, ?_, ?_, ?_⟩
  · simp [regLookup, regInsert]
  · simp [handle_client]
  · show regLookup (regRemove (regInsert st vid conn vty) vid) vid = none
    simp only [regLookup, regRemove]
    rw [List.find?_eq_none.mpr]
    · rfl
    · intro e he
      have := (List.mem_filter.mp he).2
      simpa using this
  · simp only [handle_client, List.countP_append, countP_disconnect_loop]
    simp [isDisconnectNotifyFor, List.countP_cons]

end Transport

namespace Transport

/-! ## Claim C8 -/

/-- Toward-zero truncation is monotone. -/
theorem truncToZero_mono {a b : ℚ} (h : a ≤ b) : truncToZero a ≤ truncToZero b := by
  unfold truncToZero
  split <;> split
  · exact Int.floor_le_floor h
  · exact absurd (le_trans (by assumption) h) (by assumption)
  · have ha : a ≤ 0 := le_of_lt (not_le.mp (by assumption))
    calc ⌈a⌉ ≤ 0 := Int.ceil_le.mpr (by exact_mod_cast ha)
      _ ≤ ⌊b⌋ := Int.floor_nonneg.mpr (by assumption)
  · exact Int.ceil_le_ceil h

/-- The effective progress is monotone in the raw progress argument. -/
theorem pyClampInt_mono {a b : ℚ} (h : a ≤ b) : pyClampInt a ≤ pyClampInt b := by
  unfold pyClampInt
  have := truncToZero_mono h
  omega

/-- The effective progress is at least 0. -/
theorem pyClampInt_nonneg (q : ℚ) : 0 ≤ pyClampInt q := by
  unfold pyClampInt
  omega

/-- The effective progress is at most 100. -/
theorem pyClampInt_le_100 (q : ℚ) : pyClampInt q ≤ 100 := by
  unfold pyClampInt
  omega

/-- Truncation of a cast integer is that integer. -/
theorem truncToZero_intCast (n : ℤ) : truncToZero (n : ℚ) = n := by
  unfold truncToZero
  split <;> simp

/-- Clamping is idempotent: feeding the clamped progress back through the
clamp changes nothing. -/
theorem pyClampInt_idem (q : ℚ) :
    pyClampInt ((pyClampInt q : ℤ) : ℚ) = pyClampInt q := by
  conv_lhs => rw [pyClampInt, truncToZero_intCast]
  unfold pyClampInt
  omega

/-- pyClampInt at the terminal progress value. -/
theorem pyClampInt_100 : pyClampInt 100 = 100 := by
  have : truncToZero 100 = 100 := by
    unfold truncToZero
    rw [if_pos (by norm_num)]
    norm_num
  unfold pyClampInt
  rw [this]
  omega

/-- The destination point selected by calculate_realistic_movement: the
table coordinate when the stop is known, otherwise the synthetic offset
from the current location. -/
def destOf (loc : ℚ × ℚ) (stop : String) (r : MoveRand) : ℚ × ℚ :=
  match coordsFind stop with
  | some c => c
  | none => (loc.1 + r.offLat, loc.2 + r.offLong)

/-- Closed form of calculate_realistic_movement in terms of destOf. -/
theorem cm_eq_destOf (loc : ℚ × ℚ) (stop : String) (p : ℚ) (r : MoveRand) :
    calculate_realistic_movement loc stop p r =
      (loc.1 + ((destOf loc stop r).1 - loc.1) * ((pyClampInt p : ℚ) / 100) + r.jitLat,
       loc.2 + ((destOf loc stop r).2 - loc.2) * ((pyClampInt p : ℚ) / 100) + r.jitLong) := by
  cases hc : coordsFind stop <;>
    simp [calculate_realistic_movement, destOf, hc]

/-- Jitter-free squared displacement from the current location. -/
theorem dist2_cm (loc : ℚ × ℚ) (stop : String) (p : ℚ) (r : MoveRand)
    (hj1 : r.jitLat = 0) (hj2 : r.jitLong = 0) :
    dist2 (calculate_realistic_movement loc stop p r) loc =
      (((destOf loc stop r).1 - loc.1) ^ 2 + ((destOf loc stop r).2 - loc.2) ^ 2) *
        ((pyClampInt p : ℚ) / 100) ^ 2 := by
  rw [cm_eq_destOf]
  simp only [dist2, hj1, hj2]
  ring

/-- Claim C8 as amended: the interpolation clamps progress to [0,100]
(the result is unchanged by replacing the progress with its clamped
value); with the jitter terms zeroed, the squared distance of the result
from the current location is non-decreasing in progress; and for every
stop present in the coordinate table, at progress 100 the result equals
coords_for(stop) up to the per-axis jitter bound 0.0005.  (For stops
absent from the table the code interpolates toward a synthetic offset
point instead, so the terminal-value clause holds only for known
stops.) -/
theorem C8_interpolation_clamp_monotone_terminal (loc : ℚ × ℚ) (stop : String)
    (r : MoveRand) :
    (∀ p, calculate_realistic_movement loc stop p r =
        calculate_realistic_movement loc stop ((pyClampInt p : ℤ) : ℚ) r) ∧
    (∀ p1 p2, p1 ≤ p2 → r.jitLat = 0 → r.jitLong = 0 →
        dist2 (calculate_realistic_movement loc stop p1 r) loc ≤
          dist2 (calculate_realistic_movement loc stop p2 r) loc) ∧
    (∀ c, coordsFind stop = some c → |r.jitLat| ≤ 0.0005 → |r.jitLong| ≤ 0.0005 →
        |(calculate_realistic_movement loc stop 100 r).1 -
            (get_coordinates_for_stop stop).1| ≤ 0.0005 ∧
        |(calculate_realistic_movement loc stop 100 r).2 -
            (get_coordinates_for_stop stop).2| ≤ 0.0005) := by
  refine ⟨?_, ?_, ?_⟩
  · intro p
    rw [cm_eq_destOf, cm_eq_destOf, pyClampInt_idem]
  · intro p1 p2 h12 hj1 hj2
    rw [dist2_cm loc stop p1 r hj1 hj2, dist2_cm loc stop p2 r hj1 hj2]
    have hmono := pyClampInt_mono h12
    have hn := pyClampInt_nonneg p1
    have hfrac : ((pyClampInt p1 : ℚ) / 100) ≤ ((pyClampInt p2 : ℚ) / 100) := by
      apply div_le_div_of_nonneg_right ?_ (by norm_num)
      exact_mod_cast hmono
    have h0 : (0 : ℚ) ≤ (pyClampInt p1 : ℚ) / 100 := by
      apply div_nonneg ?_ (by norm_num)
      exact_mod_cast hn
    have hsq : ((pyClampInt p1 : ℚ) / 100) ^ 2 ≤ ((pyClampInt p2 : ℚ) / 100) ^ 2 :=
      pow_le_pow_left₀ h0 hfrac 2
    have hD : 0 ≤ ((destOf loc stop r).1 - loc.1) ^ 2 + ((destOf loc stop r).2 - loc.2) ^ 2 := by
      positivity
    exact mul_le_mul_of_nonneg_left hsq hD
  · intro c hc hb1 hb2
    have hg : get_coordinates_for_stop stop = c := by
      simp [get_coordinates_for_stop, hc]
    have hd : destOf loc stop r = c := by
      simp [destOf, hc]
    rw [cm_eq_destOf, hd, hg, pyClampInt_100]
    constructor
    · have e1 : loc.1 + (c.1 - loc.1) * (((100 : ℤ) : ℚ) / 100) + r.jitLat - c.1 = r.jitLat := by
        push_cast
        ring
      simpa [e1] using hb1
    · have e2 : loc.2 + (c.2 - loc.2) * (((100 : ℤ) : ℚ) / 100) + r.jitLong - c.2 = r.jitLong := by
        push_cast
        ring
      simpa [e2] using hb2

end Transport

namespace Transport

/-- Claim C8 counterexample: for the unknown stop "Atlantis" (with a
legitimate synthetic-offset draw of 0.002 per axis and zero jitter),
interpolating from (0, 0) at progress 100 yields (0.002, 0.002), while
coords_for("Atlantis") is the Times Square fallback (40.7580, -73.9855):
the result does not equal coords_for(stop) up to the jitter bound. -/
theorem C8_counterexample :
    ((0.001 : ℚ) ≤ 0.002 ∧ (0.002 : ℚ) ≤ 0.003 ∧ |(0 : ℚ)| ≤ 0.0005) ∧
    ¬ (|(calculate_realistic_movement (0, 0) "Atlantis" 100 ⟨0.002, 0.002, 0, 0⟩).1 -
          (get_coordinates_for_stop "Atlantis").1| ≤ 0.0005) := by
  have hc : coordsFind "Atlantis" = none := by rfl
  have hg : get_coordinates_for_stop "Atlantis" = (40.7580, -73.9855) := by
    simp [get_coordinates_for_stop, hc]
  have hcm : (calculate_realistic_movement (0, 0) "Atlantis" 100 ⟨0.002, 0.002, 0, 0⟩).1
      = 0.002 := by
    rw [cm_eq_destOf, pyClampInt_100]
    simp only [destOf, hc]
    norm_num
  refine ⟨⟨by norm_num, by norm_num, by norm_num⟩, ?_⟩
  rw [hcm, hg]
  rw [show ((0.002 : ℚ) - (40.7580, (-73.9855 : ℚ)).1) = -40.756 by norm_num, abs_neg,
    abs_of_nonneg (by norm_num)]
  norm_num

/-- Witness for C8 on the known stop "Times Square". -/
theorem C8_witness :
    ((1 : ℚ) ≤ 2) ∧
    dist2 (calculate_realistic_movement (0, 0) "Times Square" 1 ⟨0.002, 0.002, 0, 0⟩) (0, 0) ≤
      dist2 (calculate_realistic_movement (0, 0) "Times Square" 2 ⟨0.002, 0.002, 0, 0⟩) (0, 0) ∧
    coordsFind "Times Square" = some (40.7580, -73.9855) ∧
    |(calculate_realistic_movement (0, 0) "Times Square" 100 ⟨0.002, 0.002, 0, 0⟩).1 -
        (get_coordinates_for_stop "Times Square").1| ≤ 0.0005 :=
  ⟨by norm_num,
   (C8_interpolation_clamp_monotone_terminal (0, 0) "Times Square"
       ⟨0.002, 0.002, 0, 0⟩).2.1 1 2 (by norm_num) rfl rfl,
   rfl,
   ((C8_interpolation_clamp_monotone_terminal (0, 0) "Times Square"
       ⟨0.002, 0.002, 0, 0⟩).2.2 (40.7580, -73.9855) rfl (by norm_num) (by norm_num)).1⟩

end Transport
